import Mathlib

/-!
Verification of the trenddrop-v2 payment-event ingestion pipeline.

The repository's webhook handlers (Deno/TypeScript edge functions) are
shallowly embedded here:
* JSON payloads become the inductive `J`; JavaScript optional chaining
  (`a?.b`) and nullish coalescing (`??`) become `getF` and `jor`
  (both JSON `null` and JavaScript `undefined` collapse to `none`,
  which matches every use in these handlers: the handlers only ever
  feed such values into `??`, `||`, truthiness tests, `String(...)`
  and strict comparison against non-null strings);
* WebCrypto HMAC-SHA256 is an abstract parameter `hmac : String →
  String → String` (secret, message ↦ lowercase hex digest), since the
  claims are about the composition around the primitive, not SHA-256;
* database tables become lists of rows, Supabase `upsert`
  (`onConflict` key) and `update ... eq` become explicit list
  operations;
* each handler becomes a pure function from configuration,
  environment outcomes, store and request to a response, the new
  store, and a record of side-effect counters.
-/

/-- `String.prototype.split` with a one-character separator (the
handlers only split on `","` and `"="`): `"a,,b"` ↦ `["a","","b"]`,
`""` ↦ `[""]`. -/
def jsSplitAux (c : Char) : List Char → List Char → List String
  | [], acc => [String.mk acc.reverse]
  | x :: xs, acc =>
    if x == c then String.mk acc.reverse :: jsSplitAux c xs []
    else jsSplitAux c xs (x :: acc)

def jsSplit (c : Char) (s : String) : List String := jsSplitAux c s.data []

/-- `String.prototype.trim` — strip whitespace from both ends. -/
def jsTrim (s : String) : String :=
  String.mk (((s.data.dropWhile Char.isWhitespace).reverse.dropWhile Char.isWhitespace).reverse)

/-- `String.prototype.toLowerCase` on the ASCII range (signature
headers and hex digests are ASCII). -/
def lcChar (c : Char) : Char :=
  if 65 ≤ c.toNat && c.toNat ≤ 90 then Char.ofNat (c.toNat + 32) else c

def jsLower (s : String) : String := String.mk (s.data.map lcChar)

def listPrefix : List Char → List Char → Bool
  | [], _ => true
  | _ :: _, [] => false
  | a :: l1, b :: l2 => a == b && listPrefix l1 l2

def hasSubAux (pat : List Char) : List Char → Bool
  | [] => listPrefix pat []
  | l@(_ :: rest) => listPrefix pat l || hasSubAux pat rest

/-- `String.prototype.includes`. -/
def hasSub (s pat : String) : Bool := hasSubAux pat.data s.data

/-- `Number.isFinite(Number(s))` for a non-empty string,
approximated by an optional sign followed by digits (no claim
exercises the telegram-id branch that uses this). -/
def jsNumericFinite (s : String) : Bool :=
  let l := if s.data.headD ' ' == '-' then s.data.tail else s.data
  !l.isEmpty && l.all Char.isDigit

/-- JavaScript/JSON values as delivered in webhook payloads. -/
inductive J where
  | null : J
  | jb (v : Bool) : J
  | js (v : String) : J
  | jn (v : Int) : J
  | jarr (xs : List J) : J
  | jobj (fs : List (String × J)) : J

/-- First-match association lookup in a JS object (our constructed
objects have unique keys, so first = last). -/
def jget : List (String × J) → String → Option J
  | [], _ => none
  | (k2, v) :: rest, k => if k2 = k then some v else jget rest k

/-- `o?.k` — optional chaining.  Absent fields and JSON `null` both
come out as `none` (JS `undefined`/`null` behave identically in every
consumer in these handlers). -/
def getF : Option J → String → Option J
  | some (J.jobj fs), k =>
      match jget fs k with
      | some J.null => none
      | r => r
  | _, _ => none

/-- `a?.[i]` — array index with optional chaining. -/
def getIdx : Option J → Nat → Option J
  | some (J.jarr xs), i =>
      match xs.get? i with
      | some J.null => none
      | r => r
  | _, _ => none

/-- `a ?? b` — nullish coalescing. -/
def jor (a b : Option J) : Option J :=
  match a with
  | some v => some v
  | none => b

mutual
/-- JavaScript `String(v)` coercion for the values these payloads
carry. -/
def jstr : J → String
  | J.null => "null"
  | J.jb true => "true"
  | J.jb false => "false"
  | J.js s => s
  | J.jn n => toString n
  | J.jarr xs => jstrArr xs
  | J.jobj _ => "[object Object]"

/-- `Array.prototype.toString`: comma join, `null` elements render
empty. -/
def jstrArr : List J → String
  | [] => ""
  | [J.null] => ""
  | [x] => jstr x
  | J.null :: xs => "," ++ jstrArr xs
  | x :: xs => jstr x ++ "," ++ jstrArr xs
end

/-- JavaScript truthiness. -/
def truthy : J → Bool
  | J.null => false
  | J.jb v => v
  | J.js s => !s.isEmpty
  | J.jn n => n != 0
  | J.jarr _ => true
  | J.jobj _ => true

/-- Truthiness of a possibly-absent value (`undefined` is falsy). -/
def truthyO : Option J → Bool
  | none => false
  | some v => truthy v

/-- `a || b` on JSON values — returns `a` when truthy, else `b`. -/
def jorT (a b : Option J) : Option J :=
  if truthyO a then a else b

/-- `String(o ?? "")` — the ubiquitous coercion pattern. -/
def jS (o : Option J) : String :=
  match o with
  | none => ""
  | some v => jstr v

/-- `o === s` for a string literal `s` (strict equality of a payload
value against a configured string). -/
def jeqStr (o : Option J) (s : String) : Bool :=
  match o with
  | some (J.js v) => v == s
  | _ => false

mutual
/-- Structural equality of JSON values (used for `onConflict` column
matching, where PostgREST compares the stored values). -/
def jeq : J → J → Bool
  | J.null, J.null => true
  | J.jb a, J.jb b => a == b
  | J.js a, J.js b => a == b
  | J.jn a, J.jn b => a == b
  | J.jarr a, J.jarr b => jeqList a b
  | J.jobj a, J.jobj b => jeqObj a b
  | _, _ => false

def jeqList : List J → List J → Bool
  | [], [] => true
  | a :: l1, b :: l2 => jeq a b && jeqList l1 l2
  | _, _ => false

def jeqObj : List (String × J) → List (String × J) → Bool
  | [], [] => true
  | (k1, w1) :: l1, (k2, w2) :: l2 => k1 == k2 && jeq w1 w2 && jeqObj l1 l2
  | _, _ => false
end

/-- Equality of optional JSON values (SQL `NULL` never matches). -/
def jeqO (a b : Option J) : Bool :=
  match a, b with
  | some x, some y => jeq x y
  | _, _ => false

/-- An HTTP response: status code plus JSON (or text) body. -/
structure Resp where
  status : Nat
  body : J

namespace StripeW

/-- `tsec` — the handler's timing-safe string equality
(`supabase/functions/stripe-webhook/index.ts`): length check, then
XOR-accumulate over char codes. -/
def tsec (a b : String) : Bool :=
  if a.length ≠ b.length then false
  else ((a.data.zip b.data).foldl (fun r p => r ||| (p.1.toNat ^^^ p.2.toNat)) 0) == 0

/-- Accumulator of `parseStripeSigHeader`'s loop: `t` is the last
value assigned to the `t` key (`none` both when never assigned and
when assigned a valueless `t` part, matching the JS `undefined`), and
`v1` collects every value pushed for a `v1` key, a valueless `v1=`-less
part contributing `none` (JS pushes `undefined`). -/
structure SigAcc where
  t : Option String
  v1 : List (Option String)

/-- One iteration of the header loop: split the part on `=`,
assign/push according to the key. -/
def sigStep (acc : SigAcc) (p : String) : SigAcc :=
  let kv := jsSplit '=' p
  let k := kv.headD ""
  let v := (kv.drop 1).head?
  let acc1 := if k = "t" then { acc with t := v } else acc
  if k = "v1" then { acc1 with v1 := acc1.v1 ++ [v] } else acc1

/-- `parseStripeSigHeader` — split on commas, trim, collect `t` and
`v1` parts; `null` when the header is falsy, `t` is falsy
(missing or empty) or no `v1` part was seen. -/
def parseStripeSigHeader (header : Option String) : Option (String × List (Option String)) :=
  match header with
  | none => none
  | some h =>
    if h == "" then none
    else
      let parts := (jsSplit ',' h).map jsTrim
      let acc := parts.foldl sigStep { t := none, v1 := [] }
      match acc.t with
      | none => none
      | some t => if t == "" || acc.v1.isEmpty then none else some (t, acc.v1)

/-- Result of running the stripe verification: a boolean, or a
thrown TypeError that escapes the function. -/
inductive VerifyOutcome where
  | ok (b : Bool)
  | thrown
deriving DecidableEq

/-- `parsed.v1.some((given) => tsec(given, expected))` — JS
`Array.prototype.some` evaluated left to right; a candidate that is
`undefined` (a bare `v1` part) makes `tsec` throw
(`undefined.length`), modelled as `thrown`. -/
def candScan : List (Option String) → String → VerifyOutcome
  | [], _ => .ok false
  | none :: _, _ => .thrown
  | some a :: rest, expected =>
      if tsec a expected then .ok true else candScan rest expected

/-- `verifyStripeSignature` — parse the `Stripe-Signature` header,
HMAC the string `"<t>.<rawBody>"` with the webhook secret, accept if
any `v1` candidate `tsec`-matches.  The WebCrypto HMAC-SHA256
primitive is the abstract parameter `hmac`. -/
def verifyStripeSignature (hmac : String → String → String)
    (rawBody sigHeader secret : String) : VerifyOutcome :=
  match parseStripeSigHeader (some sigHeader) with
  | none => .ok false
  | some (t, v1) => candScan v1 (hmac secret (t ++ "." ++ rawBody))

/-- `extractProductName` — metadata product name, else first display
item's plan/price nickname, else the fixed default. -/
def extractProductName (evt : J) : String :=
  let obj := jor (getF (getF (some evt) "data") "object") (some (J.jobj []))
  let metaName := getF (getF obj "metadata") "product_name"
  if truthyO metaName then jS metaName
  else
    let line := getIdx (getF obj "display_items") 0
    let planName := jor (getF (getF line "plan") "nickname") (getF (getF line "price") "nickname")
    if truthyO planName then jS planName
    else "Premium Access"

/-- `extractBuyerEmail` — per-event-type fallback chains over the
payload's email-bearing fields. -/
def extractBuyerEmail (evt : J) : Option J :=
  let obj := getF (getF (some evt) "data") "object"
  let ty := getF (some evt) "type"
  if jeqStr ty "checkout.session.completed" then
    jor (getF (getF obj "customer_details") "email")
      (jor (getF obj "customer_email") (getF (getF obj "customer") "email"))
  else if jeqStr ty "payment_intent.succeeded" then
    jor (getF obj "receipt_email")
      (jor (getF (getF obj "customer") "email")
        (getF (getF (getF obj "latest_charge") "billing_details") "email"))
  else if jeqStr ty "invoice.paid" then
    jor (getF obj "customer_email")
      (jor (getF (getF obj "customer") "email") (getF obj "account_customer_email"))
  else none

/-- `NormalizedStripeInfo` — the handler's normalized record. -/
structure NormalizedStripeInfo where
  eventId : String
  customerId : Option J
  checkoutSessionId : Option J
  email : Option J
  productName : String
  planId : Option J

/-- `normalizeStripeEvent` — dispatch on `evt.type`, populate the
normalized record with the per-type field fallbacks. -/
def normalizeStripeEvent (evt : J) : NormalizedStripeInfo :=
  let obj := jor (getF (getF (some evt) "data") "object") (some (J.jobj []))
  let ty := getF (some evt) "type"
  let base : NormalizedStripeInfo :=
    { eventId := jS (getF (some evt) "id")
      customerId := none
      checkoutSessionId := none
      email := none
      productName := extractProductName evt
      planId := none }
  if jeqStr ty "checkout.session.completed" then
    { base with
      customerId := getF obj "customer"
      checkoutSessionId := getF obj "id"
      email := jor (getF (getF obj "customer_details") "email")
        (jor (getF obj "customer_email") (getF (getF obj "customer") "email"))
      planId := jor (getF (getF obj "metadata") "plan_id")
        (getF (getF obj "metadata") "product_name") }
  else if jeqStr ty "payment_intent.succeeded" then
    { base with
      customerId := getF obj "customer"
      checkoutSessionId := jor (getF (getF obj "metadata") "checkout_session_id")
        (getF obj "latest_charge")
      email := jor (getF (getF (getIdx (getF (getF obj "charges") "data") 0) "billing_details") "email")
        (jor (getF obj "receipt_email") (getF (getF obj "customer") "email"))
      planId := jor (getF (getF obj "metadata") "plan_id")
        (getF (getF obj "metadata") "product_name") }
  else base

/-- `shouldSend` — the event types that trigger the onboarding
email. -/
def shouldSend (ty : Option J) : Bool :=
  jeqStr ty "checkout.session.completed" || jeqStr ty "payment_intent.succeeded" ||
    jeqStr ty "invoice.paid"

/-- `shouldProcessDb` — the event types that trigger the
customer/subscription upserts. -/
def shouldProcessDb (ty : Option J) : Bool :=
  jeqStr ty "checkout.session.completed" || jeqStr ty "payment_intent.succeeded"

/-- Configuration loaded by `_shared/config.ts` (each `read` yields a
trimmed non-empty string or `none`). -/
structure Cfg where
  webhookSecret : Option String
  brevoApiKey : Option String
  emailFrom : Option String
  dbConfigured : Bool

/-- External outcomes of one request-handling episode: the HMAC
primitive, the `JSON.parse` result of the raw body (`none` = parse
throws), whether the ledger upsert succeeds at the database, whether
the Brevo send succeeds, the Brevo failure message, and the clock. -/
structure Env where
  hmac : String → String → String
  parse : String → Option J
  ledgerOk : Bool
  emailOk : Bool
  emailErr : String
  now : String

structure Req where
  method : String
  sigHeader : Option String
  rawBody : String

/-- A row of `customers` (the serial `id` column is omitted — no
claim reads the `customer_id` linkage). -/
structure CustomerRow where
  stripe_customer_id : Option J
  email : J

/-- A row of `premium_subscriptions` as written by the handler. -/
structure SubRow where
  stripe_checkout_session_id : Option J
  status : String
  plan_id : J
  last_event_at : String

/-- A row of `onboarding_emails`. -/
structure NotifRow where
  to_email : J
  product_name : String
  event_id : String
  stripe_checkout_session_id : Option J
  stripe_customer_id : Option J
  status : String
  error_message : Option String

/-- The stripe-side database: `stripe_event_ledger` keyed by the text
value of `event_id` (rows inserted with a SQL `NULL` key never
conflict, so they are not recorded), plus the three written tables. -/
structure DB where
  ledger : List String
  customers : List CustomerRow
  subs : List SubRow
  notifs : List NotifRow

/-- Side-effect counters for one request. -/
structure Eff where
  customerUpserts : Nat := 0
  subUpserts : Nat := 0
  notifInserts : Nat := 0
  emailSends : Nat := 0

def noEff : Eff := {}

/-- `customers` upsert, `onConflict: "stripe_customer_id"`; a `NULL`
key never conflicts and always inserts. -/
def customerUpsert (rows : List CustomerRow) (row : CustomerRow) : List CustomerRow :=
  match row.stripe_customer_id with
  | none => rows ++ [row]
  | some k =>
    if rows.any (fun r => jeqO r.stripe_customer_id (some k)) then
      rows.map (fun r => if jeqO r.stripe_customer_id (some k) then row else r)
    else rows ++ [row]

/-- `premium_subscriptions` upsert, `onConflict:
"stripe_checkout_session_id"`. -/
def subUpsert (rows : List SubRow) (row : SubRow) : List SubRow :=
  match row.stripe_checkout_session_id with
  | none => rows ++ [row]
  | some k =>
    if rows.any (fun r => jeqO r.stripe_checkout_session_id (some k)) then
      rows.map (fun r => if jeqO r.stripe_checkout_session_id (some k) then row else r)
    else rows ++ [row]

def okR (data : J) : Resp := { status := 200, body := data }

def badR (msg : String) (status : Nat) : Resp :=
  { status := status, body := J.jobj [("ok", J.jb false), ("error", J.js msg)] }

/-- The `Deno.serve` handler of
`supabase/functions/stripe-webhook/index.ts` as a pure function:
response, updated database, side-effect counters.  A JSON body that
parses to `null` throws at the first member access (`evt.id`); like
every other throw it is caught by the top-level handler and answered
with 500. -/
def handler (cfg : Cfg) (env : Env) (db : DB) (req : Req) : Resp × DB × Eff :=
  if req.method == "GET" then (okR (J.jobj [("status", J.js "ok")]), db, noEff)
  else
    match cfg.webhookSecret with
    | none => (badR "server not configured (secret)" 500, db, noEff)
    | some secret =>
      if cfg.brevoApiKey.isNone || cfg.emailFrom.isNone then
        (badR "server not configured (email)" 500, db, noEff)
      else
        let raw := req.rawBody
        match req.sigHeader with
        | none => (badR "missing signature" 400, db, noEff)
        | some hdr =>
          match verifyStripeSignature env.hmac raw hdr secret with
          | .thrown => (badR "internal error" 500, db, noEff)
          | .ok false => (badR "bad signature" 400, db, noEff)
          | .ok true =>
            match env.parse raw with
            | none => (badR "internal error" 500, db, noEff)
            | some J.null => (badR "internal error" 500, db, noEff)
            | some evt =>
              let evtId := getF (some evt) "id"
              let evtTy := getF (some evt) "type"
              let ledgerKey := (evtId).map jstr
              -- idempotency ledger (only when db is configured); a
              -- failing ledger write logs and continues
              let ledgerStep : Bool × List String :=
                if cfg.dbConfigured && env.ledgerOk then
                  match ledgerKey with
                  | some k =>
                    if db.ledger.contains k then (true, db.ledger)
                    else (false, db.ledger ++ [k])
                  | none => (false, db.ledger)
                else (false, db.ledger)
              if ledgerStep.1 then
                (okR (J.jobj [("received", J.jb true), ("duplicate", J.jb true)]),
                  { db with ledger := ledgerStep.2 }, noEff)
              else
                let db1 := { db with ledger := ledgerStep.2 }
                if !shouldSend evtTy then
                  (okR (J.jobj [("ignored", J.jb true)]), db1, noEff)
                else
                  let normalized := normalizeStripeEvent evt
                  let buyerEmail := jor normalized.email (extractBuyerEmail evt)
                  if !truthyO buyerEmail then
                    (okR (J.jobj [("skipped", J.jb true), ("reason", J.js "no_email")]), db1, noEff)
                  else
                    let buyer := buyerEmail.getD J.null
                    let doDb := cfg.dbConfigured && shouldProcessDb evtTy
                    let db2 :=
                      if doDb then
                        { db1 with
                          customers := customerUpsert db1.customers
                            { stripe_customer_id := normalized.customerId, email := buyer }
                          subs := subUpsert db1.subs
                            { stripe_checkout_session_id := normalized.checkoutSessionId
                              status := "active"
                              plan_id := (normalized.planId).getD (J.js normalized.productName)
                              last_event_at := env.now } }
                      else db1
                    let eff1 : Eff :=
                      if doDb then { customerUpserts := 1, subUpserts := 1 } else noEff
                    -- Brevo send + onboarding_emails insert
                    let db3 :=
                      if cfg.dbConfigured then
                        { db2 with notifs := db2.notifs ++
                          [{ to_email := buyer
                             product_name := normalized.productName
                             event_id := normalized.eventId
                             stripe_checkout_session_id := normalized.checkoutSessionId
                             stripe_customer_id := normalized.customerId
                             status := if env.emailOk then "sent" else "error"
                             error_message := if env.emailOk then none else some env.emailErr }] }
                      else db2
                    let eff2 : Eff :=
                      { eff1 with emailSends := 1
                                  notifInserts := if cfg.dbConfigured then 1 else 0 }
                    (okR (J.jobj [("received", J.jb true), ("sent", J.jb env.emailOk)]), db3, eff2)

end StripeW

/-- A row of the `subscribers` table, shared by the gumroad and
payhip handlers (columns each handler writes; text columns hold the
serialized payload values). -/
structure SubscriberRow where
  sale_id : Option String
  email : String
  product_id : Option String
  seller_id : Option String
  full_name : Option String
  source : Option String
  pdf_url : Option String
  csv_url : Option String
  revoked_at : Option String

/-- `update({ revoked_at: now }).eq("sale_id", sale_id)` — both
marketplace refund branches. -/
def revokeBySaleId (rows : List SubscriberRow) (saleId now : String) : List SubscriberRow :=
  rows.map (fun r => if r.sale_id == some saleId then { r with revoked_at := some now } else r)

namespace Gumroad

/-- Configuration consumed by the gumroad handler. -/
structure Cfg where
  secret : Option String
  sellerId : Option String
  requireAuth : Bool
  telegramConfigured : Bool
  autoInviteReady : Bool
  dbConfigured : Bool

/-- External outcomes: HMAC primitive, clock, signed-URL creation
results, and the (ignored) result of the add-member call. -/
structure Env where
  hmac : String → String → String
  now : String
  pdfUrl : Option String
  csvUrl : Option String
  addMemberOk : Bool

/-- Side-effect counters for one gumroad request. -/
structure Eff where
  upserts : Nat := 0
  linkUpdates : Nat := 0
  telegramNotifies : Nat := 0
  inviteCalls : Nat := 0
  revokes : Nat := 0

def noEff : Eff := {}

/-- `verifyHmac` — `X-Gumroad-Signature` must equal the lowercase hex
HMAC-SHA256 of the raw body keyed by the configured secret
(case-insensitive); `false` when no secret is configured or the
header is missing/empty. -/
def verifyHmac (secret : Option String) (hdr : Option String)
    (hmac : String → String → String) (rawBody : String) : Bool :=
  match secret with
  | none => false
  | some sec =>
    match hdr with
    | none => false
    | some h =>
      if h == "" then false
      else jsLower (hmac sec rawBody) == jsLower (jsTrim h)

/-- `actionOf` — `String(p["action"] ?? p["resource_name"] ?? "").toLowerCase()`. -/
def actionOf (p : J) : String :=
  jsLower (jS (jor (getF (some p) "action") (getF (some p) "resource_name")))

/-- The `subscribers` upsert of `handleSale`, `onConflict:
"sale_id"` — the update branch rewrites exactly the supplied columns
and leaves `source`, `pdf_url`, `csv_url`, `revoked_at` untouched. -/
def saleUpsert (rows : List SubscriberRow) (saleId email : String)
    (pid sid fname : Option String) : List SubscriberRow :=
  if rows.any (fun r => r.sale_id == some saleId) then
    rows.map (fun r =>
      if r.sale_id == some saleId then
        { r with sale_id := some saleId, email := email, product_id := pid,
                 seller_id := sid, full_name := fname }
      else r)
  else
    rows ++ [{ sale_id := some saleId, email := email, product_id := pid,
               seller_id := sid, full_name := fname, source := none,
               pdf_url := none, csv_url := none, revoked_at := none }]

/-- `update({ pdf_url, csv_url }).eq("sale_id", sale_id)`. -/
def attachLinks (rows : List SubscriberRow) (saleId : String)
    (pdf csv : Option String) : List SubscriberRow :=
  rows.map (fun r =>
    if r.sale_id == some saleId then { r with pdf_url := pdf, csv_url := csv } else r)

/-- The telegram auto-invite guard: the raw telegram field with
leading `@` stripped, required non-empty and numeric
(JS `Number.isFinite(Number(rawTg))`, approximated by integer
parsing — no claim exercises this branch). -/
def inviteWanted (p : J) : Bool :=
  let rawTg := (jS (jor (getF (some p) "telegram_user_id")
    (jor (getF (getF (some p) "custom_fields") "telegram_user_id")
      (jor (getF (some p) "telegram_id")
        (jor (getF (getF (some p) "custom_fields") "telegram_id")
          (getF (some p) "telegram"))))))
  let stripped := String.mk (rawTg.data.dropWhile (fun c => c == '@'))
  if stripped.isEmpty then false else jsNumericFinite stripped

/-- `handleSale` — `none` models the `supa()` throw when the database
client is not configured (surfaces as a 500 from the server wrapper);
otherwise the response body, the updated `subscribers` table and the
effect counters. -/
def handleSale (cfg : Cfg) (env : Env) (rows : List SubscriberRow) (p : J) :
    Option (J × List SubscriberRow × Eff) :=
  if !cfg.dbConfigured then none
  else
    let saleId := jS (jor (getF (some p) "sale_id") (getF (some p) "id"))
    let email := jS (jor (getF (some p) "email") (getF (some p) "purchaser_email"))
    let productId := jS (jor (getF (some p) "product_id") (getF (getF (some p) "product") "id"))
    let sellerId := jS (jor (getF (some p) "seller_id") (getF (getF (some p) "seller") "id"))
    let fullName := jS (jor (getF (some p) "full_name") (getF (some p) "purchaser_name"))
    if saleId == "" || email == "" then
      some (J.jobj [("ok", J.jb false), ("error", J.js "missing_sale_or_email")], rows, noEff)
    else
      let rows1 := saleUpsert rows saleId email
        (if productId == "" then none else some productId)
        (if sellerId == "" then none else some sellerId)
        (if fullName == "" then none else some fullName)
      let notifies := if cfg.telegramConfigured then 1 else 0
      let invites := if inviteWanted p && cfg.autoInviteReady then 1 else 0
      let rows2 := attachLinks rows1 saleId env.pdfUrl env.csvUrl
      let optS : Option String → J := fun o =>
        match o with
        | some s => J.js s
        | none => J.null
      some (J.jobj [("ok", J.jb true), ("pdf_url", optS env.pdfUrl), ("csv_url", optS env.csvUrl)],
        rows2,
        { upserts := 1, linkUpdates := 1, telegramNotifies := notifies, inviteCalls := invites })

/-- The auth decision of the serve body: header HMAC first, then the
body-credential fallback — each *configured* credential must be
strictly equal to the corresponding payload field, an *unconfigured*
credential imposes no constraint. -/
def authDecision (cfg : Cfg) (env : Env) (hdr : Option String)
    (rawBody : String) (p : J) : Bool :=
  let hmacOk := verifyHmac cfg.secret hdr env.hmac rawBody
  if hmacOk then true
  else
    let gotSecret := jor (getF (some p) "secret") (getF (getF (some p) "custom_fields") "secret")
    let gotSeller := jor (getF (some p) "seller_id") (getF (getF (some p) "seller") "id")
    (match cfg.secret with
     | some s => jeqStr gotSecret s
     | none => true) &&
    (match cfg.sellerId with
     | some s => jeqStr gotSeller s
     | none => true)

/-- The `serve` body of
`supabase/functions/gumroad-webhook/index.ts` (the raw body is read
and `parseBody`d before anything else; `p` is the parsed payload). -/
def handler (cfg : Cfg) (env : Env) (rows : List SubscriberRow) (hdr : Option String)
    (rawBody : String) (p : J) : Resp × List SubscriberRow × Eff :=
  let action := actionOf p
  if action == "ping" then
    ({ status := 200, body := J.jobj [("ok", J.jb true), ("type", J.js "ping")] }, rows, noEff)
  else if cfg.requireAuth && !authDecision cfg env hdr rawBody p then
    ({ status := 200, body := J.jobj [("ok", J.jb false), ("error", J.js "unauthorized")] },
      rows, noEff)
  else if action == "sale" then
    match handleSale cfg env rows p with
    | none => ({ status := 500, body := J.js "Internal Server Error" }, rows, noEff)
    | some (body, rows2, eff) => ({ status := 200, body := body }, rows2, eff)
  else if action == "refund" || action == "chargeback" || action == "subscription_cancelled" then
    let saleId := jS (jor (getF (some p) "sale_id") (getF (some p) "id"))
    if cfg.dbConfigured && !(saleId == "") then
      ({ status := 200, body := J.jobj [("ok", J.jb true)] },
        revokeBySaleId rows saleId env.now, { revokes := 1 })
    else
      ({ status := 200, body := J.jobj [("ok", J.jb true)] }, rows, noEff)
  else
    ({ status := 200,
       body := J.jobj [("ok", J.jb true),
         ("received", J.js (if action == "" then "unknown" else action))] }, rows, noEff)

end Gumroad

namespace Payhip

structure Cfg where
  secret : Option String
  dbConfigured : Bool

structure Env where
  hmac : String → String → String
  now : String

structure Eff where
  upserts : Nat := 0
  revokes : Nat := 0

def noEff : Eff := {}

/-- `verifyHmac` — `X-Payhip-Signature` must equal the lowercase hex
HMAC-SHA256 of the raw body keyed by `PAYHIP_API_KEY`
(case-insensitive); `false` with no secret or no header. -/
def verifyHmac (secret : Option String) (hdr : Option String)
    (hmac : String → String → String) (raw : String) : Bool :=
  match secret with
  | none => false
  | some sec =>
    match hdr with
    | none => false
    | some h =>
      if h == "" then false
      else jsLower (hmac sec raw) == jsLower (jsTrim h)

/-- The `upsert` helper: skip entirely on a missing email, otherwise
upsert `subscribers` with `onConflict: "email"`; `sale_id` and
`product_id` are only in the row (hence only updated) when the
corresponding payload value is truthy. -/
def upsert (rows : List SubscriberRow) (email : Option String)
    (saleV productV : Option J) : List SubscriberRow × Nat :=
  match email with
  | none => (rows, 0)
  | some e =>
    let sid := if truthyO saleV then some (jS saleV) else none
    let pid := if truthyO productV then some (jS productV) else none
    if rows.any (fun r => r.email == e) then
      (rows.map (fun r =>
        if r.email == e then
          { r with email := e, source := some "payhip",
                   sale_id := match sid with | some v => some v | none => r.sale_id,
                   product_id := match pid with | some v => some v | none => r.product_id }
        else r), 1)
    else
      (rows ++ [{ sale_id := sid, email := e, product_id := pid, seller_id := none,
                  full_name := none, source := some "payhip", pdf_url := none,
                  csv_url := none, revoked_at := none }], 1)

/-- The `serve` body of
`supabase/functions/payhip-webhook/index.ts`; `parsed` is the
`JSON.parse` outcome (`none` = throw, caught into `{}`).  The sale
and refund branches are two *independent* `if`s inside one
`try/catch`; an unconfigured database throws at the first `supa()`
and is swallowed, so no write happens but the response is still
200. -/
def handler (cfg : Cfg) (env : Env) (rows : List SubscriberRow) (method : String)
    (hdr : Option String) (raw : String) (parsed : Option J) :
    Resp × List SubscriberRow × Eff :=
  if method != "POST" then
    ({ status := 405, body := J.js "Method Not Allowed" }, rows, noEff)
  else if !verifyHmac cfg.secret hdr env.hmac raw then
    ({ status := 401, body := J.jobj [("ok", J.jb false), ("error", J.js "unauthorized")] },
      rows, noEff)
  else
    let payload := parsed.getD (J.jobj [])
    let event := jS (jorT (getF (some payload) "event") (getF (some payload) "type"))
    if event == "" then
      ({ status := 200, body := J.jobj [("ok", J.jb true)] }, rows, noEff)
    else if !cfg.dbConfigured then
      ({ status := 200, body := J.jobj [("ok", J.jb true)] }, rows, noEff)
    else
      let step1 : List SubscriberRow × Nat :=
        if hasSub event "sale" || hasSub event "purchase" || hasSub event "completed" then
          let e := jS (jorT (getF (getF (some payload) "customer") "email")
            (getF (some payload) "email"))
          upsert rows (if e == "" then none else some e)
            (jorT (getF (some payload) "id") (getF (some payload) "order_id"))
            (getF (some payload) "product_id")
        else (rows, 0)
      let step2 : List SubscriberRow × Nat :=
        if hasSub event "refund" || hasSub event "chargeback" then
          let saleId := jS (jorT (getF (some payload) "id") (getF (some payload) "order_id"))
          if saleId == "" then (step1.1, 0)
          else (revokeBySaleId step1.1 saleId env.now, 1)
        else (step1.1, 0)
      ({ status := 200, body := J.jobj [("ok", J.jb true)] }, step2.1,
        { upserts := step1.2, revokes := step2.2 })

end Payhip

namespace Premium

/-- A `PremiumStatusResponse` as constructed by
`lib/premiumStatus.ts` (its `member` and the passed-through `error`
are raw JSON values). -/
structure PremiumStatusResponse where
  isPremium : Bool
  member : Option J
  error : Option J

/-- What the single `fetch` episode can do: reject (a thrown error
whose message is captured), or produce a response with a status, the
`res.text()` result (already "" when that itself failed, mirroring
`.catch(() => "")`) and the `res.json()` outcome. -/
inductive FetchOutcome where
  | networkError (msg : String)
  | response (status : Nat) (text : String) (json : Except String J)

/-- `getPremiumStatus` of `lib/premiumStatus.ts` as a pure function
of the email argument and the fetch outcome. -/
def nullAccessMsg : String := "Cannot read properties of null (reading 'isPremium')"

def getPremiumStatus (email : String) (fetch : FetchOutcome) : PremiumStatusResponse :=
  if (jsTrim email) == "" then
    { isPremium := false, member := none, error := some (J.js "empty_email") }
  else
    match fetch with
    | .networkError msg =>
      { isPremium := false, member := none, error := some (J.js msg) }
    | .response status text json =>
      if status < 200 ∨ 299 < status then
        { isPremium := false, member := none,
          error := some (J.js ("http_" ++ toString status ++ ": " ++ text)) }
      else
        match json with
        | .error msg => { isPremium := false, member := none, error := some (J.js msg) }
        | .ok J.null =>
          -- `data.isPremium` on a parsed `null` throws; the catch
          -- captures the engine's TypeError message
          { isPremium := false, member := none, error := some (J.js nullAccessMsg) }
        | .ok data =>
          { isPremium := truthyO (getF (some data) "isPremium")
            member := getF (some data) "member"
            error := getF (some data) "error" }

end Premium

/-!  The entitlement-bearing persistent state, and the write
operations the three webhook handlers can perform on it, as a step
relation (used for the never-revive invariant). -/

structure PState where
  subs : List SubscriberRow
  premium : List StripeW.SubRow

/-- One entitlement write of the pipeline, exactly as issued by the
handlers: the gumroad sale upsert and link update, the marketplace
revocations, the payhip sale upsert, and the stripe
`premium_subscriptions` upsert — which the handler only ever issues
with `status := "active"`. -/
inductive PStep : PState → PState → Prop where
  | gumSale (s : PState) (saleId email : String) (pid sid fname : Option String) :
      PStep s { s with subs := Gumroad.saleUpsert s.subs saleId email pid sid fname }
  | gumAttach (s : PState) (saleId : String) (pdf csv : Option String) :
      PStep s { s with subs := Gumroad.attachLinks s.subs saleId pdf csv }
  | gumRevoke (s : PState) (saleId now : String) :
      PStep s { s with subs := revokeBySaleId s.subs saleId now }
  | payhipSale (s : PState) (email : Option String) (saleV productV : Option J) :
      PStep s { s with subs := (Payhip.upsert s.subs email saleV productV).1 }
  | payhipRevoke (s : PState) (saleId now : String) :
      PStep s { s with subs := revokeBySaleId s.subs saleId now }
  | stripeSale (s : PState) (csid : Option J) (plan : J) (now : String) :
      PStep s { s with premium := (StripeW.subUpsert s.premium
        { stripe_checkout_session_id := csid, status := "active",
          plan_id := plan, last_event_at := now }) }

/-- States reachable by pipeline writes from the empty stores. -/
def PReachable (s : PState) : Prop :=
  Relation.ReflTransGen PStep { subs := [], premium := [] } s

/-- A subscriber row counts as revoked once `revoked_at` is set; a
`premium_subscriptions` row once its status is not `"active"`. -/
def subRevoked (r : SubscriberRow) : Prop := r.revoked_at ≠ none

def premiumRevoked (r : StripeW.SubRow) : Prop := r.status ≠ "active"

namespace StripeW

theorem nat_lor_eq_zero {m n : Nat} : m ||| n = 0 ↔ m = 0 ∧ n = 0 := by
  constructor
  · intro h
    constructor
    · apply Nat.eq_of_testBit_eq
      intro i
      have hb := congrArg (fun x => Nat.testBit x i) h
      simp only [Nat.testBit_lor, Nat.zero_testBit, Bool.or_eq_false_iff] at hb
      simp [hb.1, Nat.zero_testBit]
    · apply Nat.eq_of_testBit_eq
      intro i
      have hb := congrArg (fun x => Nat.testBit x i) h
      simp only [Nat.testBit_lor, Nat.zero_testBit, Bool.or_eq_false_iff] at hb
      simp [hb.2, Nat.zero_testBit]
  · rintro ⟨rfl, rfl⟩
    decide

theorem char_toNat_inj {a b : Char} (h : a.toNat = b.toNat) : a = b :=
  Char.ext (UInt32.ext h)

theorem tsec_foldl_eq_zero (l : List (Char × Char)) (r : Nat) :
    (l.foldl (fun r p => r ||| (p.1.toNat ^^^ p.2.toNat)) r) = 0 ↔
      r = 0 ∧ ∀ p ∈ l, p.1 = p.2 := by
  induction l generalizing r with
  | nil => simp
  | cons hd tl ih =>
    rw [List.foldl_cons, ih, nat_lor_eq_zero]
    constructor
    · rintro ⟨⟨hr, hx⟩, htl⟩
      have hhd : hd.1 = hd.2 := char_toNat_inj (Nat.xor_eq_zero.mp hx)
      refine ⟨hr, fun p hp => ?_⟩
      rcases List.mem_cons.mp hp with hp | hp
      · rw [hp]; exact hhd
      · exact htl p hp
    · rintro ⟨hr, hall⟩
      refine ⟨⟨hr, ?_⟩, fun p hp => hall p (List.mem_cons.mpr (Or.inr hp))⟩
      have hhd := hall hd (List.mem_cons.mpr (Or.inl rfl))
      rw [hhd, Nat.xor_self]

theorem zip_pointwise_eq {l1 l2 : List Char} (hlen : l1.length = l2.length)
    (h : ∀ p ∈ l1.zip l2, p.1 = p.2) : l1 = l2 := by
  induction l1 generalizing l2 with
  | nil => cases l2 with
    | nil => rfl
    | cons b bs => simp at hlen
  | cons a l ih =>
    cases l2 with
    | nil => simp at hlen
    | cons b bs =>
      have hz : (a :: l).zip (b :: bs) = (a, b) :: l.zip bs := rfl
      have h1 : a = b := h (a, b) (by rw [hz]; exact List.mem_cons_self _ _)
      have h2 : l = bs := ih (by simpa using hlen)
        (fun p hp => h p (by rw [hz]; exact List.mem_cons_of_mem _ hp))
      rw [h1, h2]

theorem mem_zip_self_eq {α : Type} (l : List α) (p : α × α) (hp : p ∈ l.zip l) :
    p.1 = p.2 := by
  induction l with
  | nil => simp at hp
  | cons a l ih =>
    have hp2 : p ∈ (a, a) :: l.zip l := hp
    rcases List.mem_cons.mp hp2 with hp3 | hp3
    · rw [hp3]
    · exact ih hp3

/-- `tsec` decides string equality (the XOR accumulator is zero iff
every character pair matches). -/
theorem tsec_eq_iff (a b : String) : tsec a b = true ↔ a = b := by
  unfold tsec
  by_cases hlen : a.length = b.length
  · rw [if_neg (by simp [hlen]), beq_iff_eq, tsec_foldl_eq_zero]
    constructor
    · rintro ⟨-, hall⟩
      have hd : a.data = b.data := zip_pointwise_eq hlen hall
      cases a; cases b
      exact congrArg String.mk hd
    · rintro rfl
      exact ⟨rfl, fun p hp => mem_zip_self_eq a.data p hp⟩
  · rw [if_pos hlen]
    simp only [Bool.false_eq_true, false_iff]
    intro hab
    exact hlen (by rw [hab])

end StripeW

theorem saleUpsert_preserves_revoked (rows : List SubscriberRow)
    (saleId email : String) (pid sid fname : Option String) (i : Nat)
    (r : SubscriberRow) (hge : rows[i]? = some r) (h : subRevoked r) :
    ∃ r2, (Gumroad.saleUpsert rows saleId email pid sid fname)[i]? = some r2 ∧
      subRevoked r2 := by
  have hi : i < rows.length := by
    rcases List.getElem?_eq_some.mp hge with ⟨hlt, -⟩
    exact hlt
  unfold Gumroad.saleUpsert
  by_cases hc : rows.any (fun q => q.sale_id == some saleId)
  · rw [if_pos hc, List.getElem?_map, hge]
    simp only [Option.map_some']
    by_cases hr : r.sale_id == some saleId
    · rw [if_pos hr]
      exact ⟨_, rfl, by simpa [subRevoked] using h⟩
    · rw [if_neg hr]
      exact ⟨r, rfl, h⟩
  · rw [if_neg hc, List.getElem?_append_left hi, hge]
    exact ⟨r, rfl, h⟩

theorem attachLinks_preserves_revoked (rows : List SubscriberRow)
    (saleId : String) (pdf csv : Option String) (i : Nat)
    (r : SubscriberRow) (hge : rows[i]? = some r) (h : subRevoked r) :
    ∃ r2, (Gumroad.attachLinks rows saleId pdf csv)[i]? = some r2 ∧ subRevoked r2 := by
  unfold Gumroad.attachLinks
  rw [List.getElem?_map, hge]
  simp only [Option.map_some']
  by_cases hr : r.sale_id == some saleId
  · rw [if_pos hr]
    exact ⟨_, rfl, by simpa [subRevoked] using h⟩
  · rw [if_neg hr]
    exact ⟨r, rfl, h⟩

theorem revokeBySaleId_preserves_revoked (rows : List SubscriberRow)
    (saleId now : String) (i : Nat)
    (r : SubscriberRow) (hge : rows[i]? = some r) (h : subRevoked r) :
    ∃ r2, (revokeBySaleId rows saleId now)[i]? = some r2 ∧ subRevoked r2 := by
  unfold revokeBySaleId
  rw [List.getElem?_map, hge]
  simp only [Option.map_some']
  by_cases hr : r.sale_id == some saleId
  · rw [if_pos hr]
    exact ⟨_, rfl, by simp [subRevoked]⟩
  · rw [if_neg hr]
    exact ⟨r, rfl, h⟩

theorem payhipUpsert_preserves_revoked (rows : List SubscriberRow)
    (email : Option String) (saleV productV : Option J) (i : Nat)
    (r : SubscriberRow) (hge : rows[i]? = some r) (h : subRevoked r) :
    ∃ r2, (Payhip.upsert rows email saleV productV).1[i]? = some r2 ∧ subRevoked r2 := by
  have hi : i < rows.length := by
    rcases List.getElem?_eq_some.mp hge with ⟨hlt, -⟩
    exact hlt
  unfold Payhip.upsert
  match email with
  | none => exact ⟨r, hge, h⟩
  | some e =>
    by_cases hc : rows.any (fun q => q.email == e)
    · simp only [hc, if_true]
      rw [List.getElem?_map, hge]
      simp only [Option.map_some']
      by_cases hr : r.email == e
      · rw [if_pos hr]
        exact ⟨_, rfl, by simpa [subRevoked] using h⟩
      · rw [if_neg hr]
        exact ⟨r, rfl, h⟩
    · simp only [hc, Bool.false_eq_true, if_false]
      refine ⟨r, ?_, h⟩
      show (rows ++ _)[i]? = some r
      rw [List.getElem?_append_left hi, hge]

theorem subUpsert_active_mem (rows : List StripeW.SubRow) (row : StripeW.SubRow)
    (hact : ∀ q ∈ rows, q.status = "active") (hrow : row.status = "active") :
    ∀ q ∈ StripeW.subUpsert rows row, q.status = "active" := by
  intro q hq
  unfold StripeW.subUpsert at hq
  cases hcs : row.stripe_checkout_session_id with
  | none =>
    simp only [hcs] at hq
    rcases List.mem_append.mp hq with hq | hq
    · exact hact q hq
    · simp at hq; rw [hq]; exact hrow
  | some k =>
    simp only [hcs] at hq
    split at hq
    · rcases List.mem_map.mp hq with ⟨p, hp, hpq⟩
      by_cases hpk : jeqO p.stripe_checkout_session_id (some k)
      · rw [if_pos hpk] at hpq; rw [← hpq]; exact hrow
      · rw [if_neg hpk] at hpq; rw [← hpq]; exact hact p hp
    · rcases List.mem_append.mp hq with hq | hq
      · exact hact q hq
      · simp at hq; rw [hq]; exact hrow

/-- Along reachable states, every `premium_subscriptions` row has
status `"active"` — the stripe handler never writes anything else and
no handler revokes that table. -/
theorem preachable_premium_active (s : PState) (hs : PReachable s) :
    ∀ r ∈ s.premium, r.status = "active" := by
  induction hs with
  | refl => intro r hr; simp at hr
  | tail _ hstep ih =>
    intro r hr
    cases hstep with
    | gumSale saleId email pid sid fname => exact ih r hr
    | gumAttach saleId pdf csv => exact ih r hr
    | gumRevoke saleId now => exact ih r hr
    | payhipSale email saleV productV => exact ih r hr
    | payhipRevoke saleId now => exact ih r hr
    | stripeSale csid plan now => exact subUpsert_active_mem _ _ ih rfl r hr

namespace StripeW

theorem candScan_all_some (v1 : List (Option String)) (expected : String)
    (hall : ∀ c ∈ v1, c.isSome) :
    (candScan v1 expected = .ok true ↔ some expected ∈ v1)
    ∧ (candScan v1 expected = .ok false ↔ some expected ∉ v1) := by
  induction v1 with
  | nil => simp [candScan]
  | cons c rest ih =>
    match c with
    | none =>
      have hc := hall none (List.mem_cons_self _ _)
      simp at hc
    | some a =>
      have ih2 := ih (fun d hd => hall d (List.mem_cons_of_mem _ hd))
      by_cases ht : tsec a expected
      · have ha : a = expected := (tsec_eq_iff a expected).mp ht
        subst ha
        simp [candScan, ht]
      · have ha : a ≠ expected := fun he => ht ((tsec_eq_iff a expected).mpr he)
        have hstep : candScan (some a :: rest) expected = candScan rest expected := by
          simp [candScan, ht]
        have hmem : (some expected ∈ (some a :: rest : List (Option String))) ↔
            some expected ∈ rest := by
          constructor
          · intro hm
            rcases List.mem_cons.mp hm with hm | hm
            · exact absurd (Option.some.inj hm).symm ha
            · exact hm
          · exact fun hm => List.mem_cons_of_mem _ hm
        rw [hstep, hmem]
        exact ih2

end StripeW

/-- C3 (amended): `verifyStripeSignature` computes HMAC-SHA256 over
`"<t>.<rawBody>"` keyed by the webhook secret; when the header is
absent or malformed (no truthy `t` or zero `v1` parts) it returns
`false`; when every supplied `v1` part carries a value, it returns
`true` iff one of them equals the computed digest and `false` iff
none does.  (A `v1` part written without a value throws instead of
returning a boolean — see the counterexample.) -/
theorem stripe_signature_verification_characterization
    (hmac : String → String → String) (rawBody hdr secret : String) :
    (StripeW.parseStripeSigHeader (some hdr) = none →
      StripeW.verifyStripeSignature hmac rawBody hdr secret = .ok false)
    ∧ (∀ t v1, StripeW.parseStripeSigHeader (some hdr) = some (t, v1) →
        (∀ c ∈ v1, c.isSome) →
        ((StripeW.verifyStripeSignature hmac rawBody hdr secret = .ok true ↔
            some (hmac secret (t ++ "." ++ rawBody)) ∈ v1)
         ∧ (StripeW.verifyStripeSignature hmac rawBody hdr secret = .ok false ↔
            some (hmac secret (t ++ "." ++ rawBody)) ∉ v1))) := by
  constructor
  · intro hp
    simp only [StripeW.verifyStripeSignature, hp]
  · intro t v1 hp hall
    simp only [StripeW.verifyStripeSignature, hp]
    exact StripeW.candScan_all_some v1 (hmac secret (t ++ "." ++ rawBody)) hall

/-- C3 witness: a concrete header whose single valued `v1` candidate
matches the digest verifies, via the characterization. -/
theorem stripe_signature_verification_characterization_witness :
    StripeW.verifyStripeSignature (fun _ _ => "ab") "x" "t=1,v1=ab" "k" = .ok true :=
  ((stripe_signature_verification_characterization (fun _ _ => "ab") "x" "t=1,v1=ab" "k").2
    "1" [some "ab"] rfl (by decide)).1.mpr (by decide)

/-- C3 counterexample: the header `"t=1,v1"` parses (it has a `t` and
one `v1` candidate) and no candidate matches, so the claim as stated
demands the function return `false`; the code instead evaluates
`tsec(undefined, expected)` which throws a TypeError (surfacing as a
500 from the handler), returning neither `false` nor `true`. -/
theorem stripe_signature_bare_v1_counterexample :
    StripeW.parseStripeSigHeader (some "t=1,v1") = some ("1", [none])
    ∧ StripeW.verifyStripeSignature (fun _ _ => "cd") "body" "t=1,v1" "k" = .thrown
    ∧ StripeW.verifyStripeSignature (fun _ _ => "cd") "body" "t=1,v1" "k" ≠ .ok false
    ∧ StripeW.verifyStripeSignature (fun _ _ => "cd") "body" "t=1,v1" "k" ≠ .ok true :=
  ⟨rfl, rfl, by decide, by decide⟩

/-- C6: a card-processor `checkout.session.completed` payload with
`customer_details.email = "a@b.com"` and `metadata.plan_id =
"premium_telegram"` normalizes to that email and plan id, and the
handler classifies the event as a completed sale (it is in both the
email-sending and the entitlement-upserting allow-lists, the model's
rendering of `kind = sale_completed`); for any session object lacking
`customer_details`, the normalized email falls back to the top-level
`customer_email` and then the nested `customer.email`, so a payload
with only `customer.email = "c@d.com"` still normalizes to
`"c@d.com"`. -/
theorem stripe_checkout_normalization_roundtrip :
    ((StripeW.normalizeStripeEvent (J.jobj [("id", J.js "evt_1"),
        ("type", J.js "checkout.session.completed"),
        ("data", J.jobj [("object", J.jobj [("id", J.js "cs_1"),
          ("customer_details", J.jobj [("email", J.js "a@b.com")]),
          ("metadata", J.jobj [("plan_id", J.js "premium_telegram")])])])])).email
        = some (J.js "a@b.com")
      ∧ (StripeW.normalizeStripeEvent (J.jobj [("id", J.js "evt_1"),
        ("type", J.js "checkout.session.completed"),
        ("data", J.jobj [("object", J.jobj [("id", J.js "cs_1"),
          ("customer_details", J.jobj [("email", J.js "a@b.com")]),
          ("metadata", J.jobj [("plan_id", J.js "premium_telegram")])])])])).planId
        = some (J.js "premium_telegram")
      ∧ StripeW.shouldProcessDb (some (J.js "checkout.session.completed")) = true
      ∧ StripeW.shouldSend (some (J.js "checkout.session.completed")) = true)
    ∧ (∀ obj : J, getF (some obj) "customer_details" = none →
        (StripeW.normalizeStripeEvent (J.jobj [("type", J.js "checkout.session.completed"),
          ("data", J.jobj [("object", obj)])])).email
          = jor (getF (some obj) "customer_email") (getF (getF (some obj) "customer") "email"))
    ∧ (StripeW.normalizeStripeEvent (J.jobj [("type", J.js "checkout.session.completed"),
        ("data", J.jobj [("object",
          J.jobj [("customer", J.jobj [("email", J.js "c@d.com")])])])])).email
        = some (J.js "c@d.com") := by
  refine ⟨⟨rfl, rfl, rfl, rfl⟩, ?_, rfl⟩
  intro obj h
  cases obj <;>
    simp_all [StripeW.normalizeStripeEvent, getF, jget, jor, jeqStr]

/-- C6 witness: the fallback clause applied to the concrete
customer-only session object. -/
theorem stripe_checkout_normalization_roundtrip_witness :
    (StripeW.normalizeStripeEvent (J.jobj [("type", J.js "checkout.session.completed"),
      ("data", J.jobj [("object",
        J.jobj [("customer", J.jobj [("email", J.js "c@d.com")])])])])).email
      = jor (getF (some (J.jobj [("customer", J.jobj [("email", J.js "c@d.com")])]))
          "customer_email")
        (getF (getF (some (J.jobj [("customer", J.jobj [("email", J.js "c@d.com")])]))
          "customer") "email") :=
  stripe_checkout_normalization_roundtrip.2.1
    (J.jobj [("customer", J.jobj [("email", J.js "c@d.com")])]) rfl

/-- C7: a gumroad delivery whose parsed payload declares action (or
resource_name) `"ping"` is always answered `200 {ok:true,type:"ping"}`
and performs no writes and no notifications — for every header,
secret, auth-requirement and database configuration, since the ping
branch runs before authentication and the handler has no ledger. -/
theorem gumroad_ping_bypasses_everything
    (cfg : Gumroad.Cfg) (env : Gumroad.Env) (rows : List SubscriberRow)
    (hdr : Option String) (rawBody : String) (p : J)
    (h : Gumroad.actionOf p = "ping") :
    Gumroad.handler cfg env rows hdr rawBody p =
      ({ status := 200, body := J.jobj [("ok", J.jb true), ("type", J.js "ping")] },
        rows, Gumroad.noEff) := by
  simp [Gumroad.handler, h]

/-- C7 witness: a concrete ping payload with no secret configured and
a missing signature header still gets the ping acknowledgment. -/
theorem gumroad_ping_bypasses_everything_witness :
    Gumroad.handler ⟨none, none, true, true, true, true⟩
      ⟨fun _ _ => "00", "T", none, none, true⟩ [] none "x"
      (J.jobj [("action", J.js "ping")]) =
      ({ status := 200, body := J.jobj [("ok", J.jb true), ("type", J.js "ping")] },
        [], Gumroad.noEff) :=
  gumroad_ping_bypasses_everything _ _ _ _ _ _ rfl

/-- C10 counterexample: the claim demands a non-empty error message
on every failure path, but a rejected fetch whose thrown error has an
empty message is passed through verbatim: the result's error message
is the empty string (isPremium/member are still false/null). -/
theorem premium_status_empty_error_counterexample :
    Premium.getPremiumStatus "a@b.com" (.networkError "") =
      { isPremium := false, member := none, error := some (J.js "") } := rfl

/-- C10 (amended): `getPremiumStatus` is total (a pure function in
this model, mirroring that every throw in the source is caught) and
returns a typed boolean `isPremium`; on every failure path —
empty/whitespace email, rejected fetch, non-OK HTTP status, JSON
parse error — the result has `isPremium = false`, `member = null` and
a *present* error message, which is non-empty except when it is a
thrown message passed through verbatim that was itself empty. -/
theorem premium_status_failure_shape (email : String) (fetch : Premium.FetchOutcome) :
    (jsTrim email = "" ∨
     (∃ msg, fetch = .networkError msg) ∨
     (∃ status text json, fetch = .response status text json ∧ (status < 200 ∨ 299 < status)) ∨
     (∃ status text msg, fetch = .response status text (.error msg) ∧
        200 ≤ status ∧ status ≤ 299)) →
    (Premium.getPremiumStatus email fetch).isPremium = false
    ∧ (Premium.getPremiumStatus email fetch).member = none
    ∧ ∃ m, (Premium.getPremiumStatus email fetch).error = some (J.js m)
        ∧ (m = "" →
            fetch = .networkError "" ∨
            ∃ status text, fetch = .response status text (.error "") ∧
              200 ≤ status ∧ status ≤ 299) := by
  intro hfail
  by_cases he : jsTrim email = ""
  · unfold Premium.getPremiumStatus
    rw [if_pos (by simp [he])]
    exact ⟨rfl, rfl, "empty_email", rfl, fun hm => absurd hm (by decide)⟩
  · rcases hfail with he2 | ⟨msg, rfl⟩ | ⟨status, text, json, rfl, hbad⟩ |
      ⟨status, text, msg, rfl, h1, h2⟩
    · exact absurd he2 he
    · unfold Premium.getPremiumStatus
      rw [if_neg (by simp [he])]
      dsimp only
      exact ⟨rfl, rfl, msg, rfl, fun hm => Or.inl (by rw [hm])⟩
    · unfold Premium.getPremiumStatus
      rw [if_neg (by simp [he])]
      dsimp only
      rw [if_pos hbad]
      refine ⟨rfl, rfl, _, rfl, fun hm => ?_⟩
      exfalso
      have h5 := congrArg String.length hm
      rw [String.length_append, String.length_append, String.length_append] at h5
      have hh : "http_".length = 5 := rfl
      have h0 : ("" : String).length = 0 := rfl
      omega
    · unfold Premium.getPremiumStatus
      rw [if_neg (by simp [he])]
      dsimp only
      rw [if_neg (by omega)]
      exact ⟨rfl, rfl, msg, rfl, fun hm => Or.inr ⟨status, text, by rw [hm], h1, h2⟩⟩

/-- C10 witness: a non-OK response on a well-formed email yields the
failure shape, via the theorem. -/
theorem premium_status_failure_shape_witness :
    (Premium.getPremiumStatus "a@b.com" (.response 500 "oops" (.ok (J.jobj [])))).isPremium = false
    ∧ (Premium.getPremiumStatus "a@b.com" (.response 500 "oops" (.ok (J.jobj [])))).member = none :=
  ⟨(premium_status_failure_shape "a@b.com" (.response 500 "oops" (.ok (J.jobj [])))
      (Or.inr (Or.inr (Or.inl ⟨500, "oops", .ok (J.jobj []), rfl, by omega⟩)))).1,
   (premium_status_failure_shape "a@b.com" (.response 500 "oops" (.ok (J.jobj [])))
      (Or.inr (Or.inr (Or.inl ⟨500, "oops", .ok (J.jobj []), rfl, by omega⟩)))).2.1⟩

/-- C9 counterexample: the payhip handler upserts `subscribers` with
`onConflict: "email"`, not the provider sale id — a second sale with
the same email but a different sale id overwrites the existing row
(one row, sale id replaced) instead of inserting a second row keyed
by sale id as the claim states. -/
theorem payhip_conflict_key_counterexample :
    (Payhip.upsert [{ sale_id := some "s1", email := "a@b.com", product_id := none,
                      seller_id := none, full_name := none, source := some "payhip",
                      pdf_url := none, csv_url := none, revoked_at := none }]
      (some "a@b.com") (some (J.js "s2")) none).1 =
      [{ sale_id := some "s2", email := "a@b.com", product_id := none,
         seller_id := none, full_name := none, source := some "payhip", pdf_url := none,
         csv_url := none, revoked_at := none }]
    ∧ (Payhip.upsert [{ sale_id := some "s1", email := "a@b.com", product_id := none,
                        seller_id := none, full_name := none, source := some "payhip",
                        pdf_url := none, csv_url := none, revoked_at := none }]
      (some "a@b.com") (some (J.js "s2")) none).1.length = 1 := ⟨rfl, rfl⟩

/-- C9 (amended): the entitlement conflict keys, shown behaviorally:
the card processor's `premium_subscriptions` upsert conflates rows
exactly on `stripe_checkout_session_id` (same id ⟹ one row with the
later fields, different ids ⟹ two rows); the gumroad `subscribers`
upsert conflates exactly on `sale_id` (even across different emails,
and not on email); the payhip `subscribers` upsert conflates on
`email` (even across different sale ids), not on the sale id. -/
theorem entitlement_upsert_conflict_keys :
    (∀ (s : String) (p1 p2 : J) (t1 t2 : String),
      StripeW.subUpsert (StripeW.subUpsert []
          { stripe_checkout_session_id := some (J.js s), status := "active",
            plan_id := p1, last_event_at := t1 })
          { stripe_checkout_session_id := some (J.js s), status := "active",
            plan_id := p2, last_event_at := t2 }
        = [{ stripe_checkout_session_id := some (J.js s), status := "active",
             plan_id := p2, last_event_at := t2 }])
    ∧ (∀ (s1 s2 : String) (p : J) (t : String), s1 ≠ s2 →
      (StripeW.subUpsert (StripeW.subUpsert []
          { stripe_checkout_session_id := some (J.js s1), status := "active",
            plan_id := p, last_event_at := t })
          { stripe_checkout_session_id := some (J.js s2), status := "active",
            plan_id := p, last_event_at := t }).length = 2)
    ∧ (∀ (sid e1 e2 : String),
      Gumroad.saleUpsert (Gumroad.saleUpsert [] sid e1 none none none) sid e2 none none none
        = [{ sale_id := some sid, email := e2, product_id := none, seller_id := none,
             full_name := none, source := none, pdf_url := none, csv_url := none,
             revoked_at := none }])
    ∧ (∀ (s1 s2 e : String), s1 ≠ s2 →
      (Gumroad.saleUpsert (Gumroad.saleUpsert [] s1 e none none none) s2 e none none none).length
        = 2)
    ∧ (∀ (e sid1 sid2 : String), sid1 ≠ "" → sid2 ≠ "" →
      (Payhip.upsert (Payhip.upsert [] (some e) (some (J.js sid1)) none).1
          (some e) (some (J.js sid2)) none).1
        = [{ sale_id := some sid2, email := e, product_id := none, seller_id := none,
             full_name := none, source := some "payhip", pdf_url := none, csv_url := none,
             revoked_at := none }])
    ∧ (∀ (e1 e2 sid : String), e1 ≠ e2 → sid ≠ "" →
      (Payhip.upsert (Payhip.upsert [] (some e1) (some (J.js sid)) none).1
          (some e2) (some (J.js sid)) none).1.length = 2) := by
  refine ⟨?_, ?_, ?_, ?_, ?_, ?_⟩
  · intro s p1 p2 t1 t2
    simp [StripeW.subUpsert, jeqO, jeq]
  · intro s1 s2 p t h
    simp [StripeW.subUpsert, jeqO, jeq, h]
  · intro sid e1 e2
    simp [Gumroad.saleUpsert]
  · intro s1 s2 e h
    simp [Gumroad.saleUpsert, h, Ne.symm h]
  · intro e sid1 sid2 h1 h2
    have h1e : sid1.isEmpty = false := by
      rw [Bool.eq_false_iff]
      intro hx
      exact h1 ((String.isEmpty_iff sid1).mp hx)
    have h2e : sid2.isEmpty = false := by
      rw [Bool.eq_false_iff]
      intro hx
      exact h2 ((String.isEmpty_iff sid2).mp hx)
    simp [Payhip.upsert, truthyO, truthy, jS, jstr, h1e, h2e]
  · intro e1 e2 sid h he
    have hee : sid.isEmpty = false := by
      rw [Bool.eq_false_iff]
      intro hx
      exact he ((String.isEmpty_iff sid).mp hx)
    simp [Payhip.upsert, truthyO, truthy, jS, jstr, hee, h, Ne.symm h]

/-- C9 witness: key-distinguishing instances at concrete inputs. -/
theorem entitlement_upsert_conflict_keys_witness :
    (StripeW.subUpsert (StripeW.subUpsert []
        { stripe_checkout_session_id := some (J.js "cs1"), status := "active",
          plan_id := J.js "p", last_event_at := "T" })
        { stripe_checkout_session_id := some (J.js "cs2"), status := "active",
          plan_id := J.js "p", last_event_at := "T" }).length = 2
    ∧ (Payhip.upsert (Payhip.upsert [] (some "a@b") (some (J.js "s1")) none).1
        (some "a@b") (some (J.js "s2")) none).1
      = [{ sale_id := some "s2", email := "a@b", product_id := none, seller_id := none,
           full_name := none, source := some "payhip", pdf_url := none, csv_url := none,
           revoked_at := none }] :=
  ⟨entitlement_upsert_conflict_keys.2.1 "cs1" "cs2" (J.js "p") "T" (by decide),
   entitlement_upsert_conflict_keys.2.2.2.2.1 "a@b" "s1" "s2" (by decide) (by decide)⟩

theorem revokeBySaleId_hit (rows : List SubscriberRow) (saleId now : String)
    (i : Nat) (r : SubscriberRow) (hge : rows[i]? = some r)
    (hsid : r.sale_id = some saleId) :
    (revokeBySaleId rows saleId now)[i]? = some { r with revoked_at := some now } := by
  unfold revokeBySaleId
  rw [List.getElem?_map, hge]
  simp only [Option.map_some']
  rw [if_pos (by simp [hsid])]

theorem revokeBySaleId_noop (rows : List SubscriberRow) (saleId now : String)
    (hall : ∀ r ∈ rows, r.sale_id ≠ some saleId) :
    revokeBySaleId rows saleId now = rows := by
  unfold revokeBySaleId
  induction rows with
  | nil => rfl
  | cons a l ih =>
    rw [List.map_cons, if_neg (by simp [hall a (List.mem_cons_self _ _)]),
      ih (fun r hr => hall r (List.mem_cons_of_mem _ hr))]

/-- C8 counterexample: a payhip cancellation event referencing an
existing active entitlement is *not* revoked — the payhip refund
branch only matches the substrings "refund" and "chargeback", so a
`"cancellation"` event leaves the matching row active (the claim says
a cancellation flips it to revoked); the handler still returns 200. -/
theorem payhip_cancellation_counterexample :
    Payhip.handler { secret := some "k", dbConfigured := true }
      { hmac := fun _ _ => "ab", now := "T" }
      [{ sale_id := some "s1", email := "a@b.com", product_id := none, seller_id := none,
         full_name := none, source := some "payhip", pdf_url := none, csv_url := none,
         revoked_at := none }]
      "POST" (some "ab") "x"
      (some (J.jobj [("event", J.js "cancellation"), ("id", J.js "s1")])) =
      ({ status := 200, body := J.jobj [("ok", J.jb true)] },
       [{ sale_id := some "s1", email := "a@b.com", product_id := none, seller_id := none,
          full_name := none, source := some "payhip", pdf_url := none, csv_url := none,
          revoked_at := none }], Payhip.noEff) := rfl

/-- C8 (amended): a refund or chargeback event (for the gumroad
handler additionally a `subscription_cancelled` event — the payhip
handler ignores cancellations) referencing an existing entitlement
key sets that row's `revoked_at` to the current time (the
status-to-revoked flip, with the revocation timestamp recorded); a
revocation for an unknown key is a no-op that still returns 200; and
no write of the pipeline ever transitions a revoked entitlement back
to active — marketplace rows keep `revoked_at` set under every
pipeline write, and along reachable states no card-processor
subscription row is ever revoked at all. -/
theorem refund_revocation_and_no_revive :
    (∀ (rows : List SubscriberRow) (saleId now : String) (i : Nat) (r : SubscriberRow),
      rows[i]? = some r → r.sale_id = some saleId →
      (revokeBySaleId rows saleId now)[i]? = some { r with revoked_at := some now })
    ∧ (∀ (rows : List SubscriberRow) (saleId now : String),
      (∀ r ∈ rows, r.sale_id ≠ some saleId) → revokeBySaleId rows saleId now = rows)
    ∧ (∀ (cfg : Gumroad.Cfg) (env : Gumroad.Env) (rows : List SubscriberRow)
        (hdr : Option String) (rawBody : String) (p : J),
      cfg.requireAuth = false →
      (Gumroad.actionOf p = "refund" ∨ Gumroad.actionOf p = "chargeback" ∨
        Gumroad.actionOf p = "subscription_cancelled") →
      (Gumroad.handler cfg env rows hdr rawBody p).1.status = 200
      ∧ ((∀ r ∈ rows,
            r.sale_id ≠ some (jS (jor (getF (some p) "sale_id") (getF (some p) "id")))) →
          (Gumroad.handler cfg env rows hdr rawBody p).2.1 = rows)
      ∧ (∀ (i : Nat) (r : SubscriberRow), cfg.dbConfigured = true →
          jS (jor (getF (some p) "sale_id") (getF (some p) "id")) ≠ "" →
          rows[i]? = some r →
          r.sale_id = some (jS (jor (getF (some p) "sale_id") (getF (some p) "id"))) →
          (Gumroad.handler cfg env rows hdr rawBody p).2.1[i]? =
            some { r with revoked_at := some env.now }))
    ∧ (∀ (cfg : Payhip.Cfg) (env : Payhip.Env) (rows : List SubscriberRow)
        (hdr : Option String) (raw : String) (payload : J),
      Payhip.verifyHmac cfg.secret hdr env.hmac raw = true →
      cfg.dbConfigured = true →
      jS (jorT (getF (some payload) "event") (getF (some payload) "type")) ≠ "" →
      (hasSub (jS (jorT (getF (some payload) "event") (getF (some payload) "type"))) "sale"
        || hasSub (jS (jorT (getF (some payload) "event") (getF (some payload) "type")))
            "purchase"
        || hasSub (jS (jorT (getF (some payload) "event") (getF (some payload) "type")))
            "completed") = false →
      (hasSub (jS (jorT (getF (some payload) "event") (getF (some payload) "type"))) "refund"
        || hasSub (jS (jorT (getF (some payload) "event") (getF (some payload) "type")))
            "chargeback") = true →
      jS (jorT (getF (some payload) "id") (getF (some payload) "order_id")) ≠ "" →
      Payhip.handler cfg env rows "POST" hdr raw (some payload) =
        ({ status := 200, body := J.jobj [("ok", J.jb true)] },
         revokeBySaleId rows
           (jS (jorT (getF (some payload) "id") (getF (some payload) "order_id"))) env.now,
         { upserts := 0, revokes := 1 }))
    ∧ (∀ (s s2 : PState), PReachable s → PStep s s2 →
      (∀ (i : Nat) (r : SubscriberRow), s.subs[i]? = some r → subRevoked r →
        ∃ r2, s2.subs[i]? = some r2 ∧ subRevoked r2)
      ∧ (∀ q ∈ s.premium, ¬ premiumRevoked q)
      ∧ (∀ q ∈ s2.premium, ¬ premiumRevoked q)) := by
  refine ⟨revokeBySaleId_hit, revokeBySaleId_noop, ?_, ?_, ?_⟩
  · intro cfg env rows hdr rawBody p hreq haction
    refine ⟨?_, ?_, ?_⟩
    · rcases haction with h | h | h <;>
        (simp only [Gumroad.handler, h, hreq]
         rw [if_neg (by decide), if_neg (by simp), if_neg (by decide), if_pos (by decide)]
         split <;> rfl)
    · intro hall
      rcases haction with h | h | h <;>
        (simp only [Gumroad.handler, h, hreq]
         rw [if_neg (by decide), if_neg (by simp), if_neg (by decide), if_pos (by decide)]
         split
         · exact revokeBySaleId_noop rows _ env.now hall
         · rfl)
    · intro i r hdb hsid hge hkey
      rcases haction with h | h | h <;>
        (simp only [Gumroad.handler, h, hreq]
         rw [if_neg (by decide), if_neg (by simp), if_neg (by decide), if_pos (by decide),
           if_pos (by simp [hdb, hsid])]
         exact revokeBySaleId_hit rows _ env.now i r hge hkey)
  · intro cfg env rows hdr raw payload hv hdb hE hsale hrefund hsid
    simp [Payhip.handler, hv, hdb, hE, hsale, hrefund, hsid]
  · intro s s2 hreach hstep
    refine ⟨?_, ?_, ?_⟩
    · intro i r hge hrev
      cases hstep with
      | gumSale saleId email pid sid fname =>
        exact saleUpsert_preserves_revoked s.subs saleId email pid sid fname i r hge hrev
      | gumAttach saleId pdf csv =>
        exact attachLinks_preserves_revoked s.subs saleId pdf csv i r hge hrev
      | gumRevoke saleId now =>
        exact revokeBySaleId_preserves_revoked s.subs saleId now i r hge hrev
      | payhipSale email saleV productV =>
        exact payhipUpsert_preserves_revoked s.subs email saleV productV i r hge hrev
      | payhipRevoke saleId now =>
        exact revokeBySaleId_preserves_revoked s.subs saleId now i r hge hrev
      | stripeSale csid plan now => exact ⟨r, hge, hrev⟩
    · intro q hq hqrev
      exact hqrev (preachable_premium_active s hreach q hq)
    · intro q hq hqrev
      exact hqrev (preachable_premium_active s2 (hreach.tail hstep) q hq)

/-- C8 witness: revoking an existing sale in a concrete store flips
exactly that row and stamps the time, via the theorem. -/
theorem refund_revocation_and_no_revive_witness :
    (revokeBySaleId [{ sale_id := some "s1", email := "a@b.com", product_id := none,
                       seller_id := none, full_name := none, source := none, pdf_url := none,
                       csv_url := none, revoked_at := none }] "s1" "T")[0]? =
      some { sale_id := some "s1", email := "a@b.com", product_id := none,
             seller_id := none, full_name := none, source := none, pdf_url := none,
             csv_url := none, revoked_at := some "T" } :=
  refund_revocation_and_no_revive.1
    [{ sale_id := some "s1", email := "a@b.com", product_id := none,
       seller_id := none, full_name := none, source := none, pdf_url := none,
       csv_url := none, revoked_at := none }] "s1" "T" 0 _ rfl rfl

/-- C4 counterexample: a payhip request with a well-formed sale body
and no signature header is rejected with HTTP 401, not the claimed
400 (it does perform zero writes and zero sends). -/
theorem payhip_missing_signature_counterexample :
    Payhip.handler { secret := some "k", dbConfigured := true }
      { hmac := fun _ _ => "ab", now := "T" } [] "POST" none "xbody"
      (some (J.jobj [("event", J.js "sale"), ("id", J.js "s1"),
        ("email", J.js "a@b.com")])) =
      ({ status := 401, body := J.jobj [("ok", J.jb false), ("error", J.js "unauthorized")] },
       [], Payhip.noEff)
    ∧ (401 : Nat) ≠ 400 := ⟨rfl, by decide⟩

/-- C4 (amended): a request with a missing signature header on an
otherwise well-formed body performs zero database writes and zero
email/notification sends for every provider adapter, but the status
differs per adapter: the card processor returns 400, the payhip
handler returns 401, and the gumroad handler (when auth is required,
with a configured secret and no body-embedded secret) returns 200
with `{ok:false, error:"unauthorized"}`.  -/
theorem missing_signature_handling :
    (∀ (cfg : StripeW.Cfg) (env : StripeW.Env) (db : StripeW.DB) (req : StripeW.Req)
        (sec bk ef : String),
      req.method = "POST" → cfg.webhookSecret = some sec →
      cfg.brevoApiKey = some bk → cfg.emailFrom = some ef →
      req.sigHeader = none →
      StripeW.handler cfg env db req =
        (StripeW.badR "missing signature" 400, db, StripeW.noEff))
    ∧ (∀ (cfg : Payhip.Cfg) (env : Payhip.Env) (rows : List SubscriberRow)
        (raw : String) (parsed : Option J),
      Payhip.handler cfg env rows "POST" none raw parsed =
        ({ status := 401, body := J.jobj [("ok", J.jb false), ("error", J.js "unauthorized")] },
         rows, Payhip.noEff))
    ∧ (∀ (cfg : Gumroad.Cfg) (env : Gumroad.Env) (rows : List SubscriberRow)
        (rawBody : String) (p : J) (sec : String),
      cfg.requireAuth = true → cfg.secret = some sec →
      Gumroad.actionOf p ≠ "ping" →
      jor (getF (some p) "secret") (getF (getF (some p) "custom_fields") "secret") = none →
      Gumroad.handler cfg env rows none rawBody p =
        ({ status := 200, body := J.jobj [("ok", J.jb false), ("error", J.js "unauthorized")] },
         rows, Gumroad.noEff)) := by
  refine ⟨?_, ?_, ?_⟩
  · intro cfg env db req sec bk ef hm hsec hbk hef hh
    simp [StripeW.handler, hm, hsec, hbk, hef, hh]
  · intro cfg env rows raw parsed
    cases hs : cfg.secret with
    | none => simp [Payhip.handler, Payhip.verifyHmac, hs]
    | some sec => simp [Payhip.handler, Payhip.verifyHmac, hs]
  · intro cfg env rows rawBody p sec hreq hsec hping hgot
    have hauth : Gumroad.authDecision cfg env none rawBody p = false := by
      simp [Gumroad.authDecision, Gumroad.verifyHmac, hsec, hgot, jeqStr]
    simp only [Gumroad.handler]
    rw [if_neg (by simp [hping]), if_pos (by simp [hreq, hauth])]

/-- C4 witness: the stripe clause at a concrete configured server and
a headerless request. -/
theorem missing_signature_handling_witness :
    StripeW.handler { webhookSecret := some "k", brevoApiKey := some "b",
                      emailFrom := some "f", dbConfigured := true }
      { hmac := fun _ _ => "x", parse := fun _ => none, ledgerOk := true,
        emailOk := true, emailErr := "", now := "T" }
      { ledger := [], customers := [], subs := [], notifs := [] }
      { method := "POST", sigHeader := none, rawBody := "xbody" } =
      (StripeW.badR "missing signature" 400,
       { ledger := [], customers := [], subs := [], notifs := [] }, StripeW.noEff) :=
  missing_signature_handling.1 _ _ _ _ "k" "b" "f" rfl rfl rfl rfl rfl

/-- C1 counterexample: a forged gumroad delivery (auth required,
secret configured, wrong signature header, no body credentials) is
rejected with HTTP **200** `{ok:false,error:"unauthorized"}` — not
the claimed 400/401 — though it does perform no writes and no
notification. -/
theorem gumroad_forged_delivery_counterexample :
    Gumroad.verifyHmac (some "k") (some "deadbeef") (fun _ _ => "00") "raw" = false
    ∧ Gumroad.handler { secret := some "k", sellerId := none, requireAuth := true,
                        telegramConfigured := true, autoInviteReady := true,
                        dbConfigured := true }
        { hmac := fun _ _ => "00", now := "T", pdfUrl := none, csvUrl := none,
          addMemberOk := true }
        [] (some "deadbeef") "raw" (J.jobj [("action", J.js "sale")]) =
        ({ status := 200, body := J.jobj [("ok", J.jb false), ("error", J.js "unauthorized")] },
         [], Gumroad.noEff)
    ∧ ((200 : Nat) ≠ 400 ∧ (200 : Nat) ≠ 401) := ⟨rfl, rfl, by decide, by decide⟩

/-- C1 (amended): a delivery whose signature verification fails is
never processed — no domain writes and no notification sends happen —
but the rejection status is per provider: 400 for the card processor,
401 for payhip, and 200 `{ok:false,error:"unauthorized"}` for gumroad
(whose auth decision also admits the body-credential fallback; the
hypothesis here is that the whole auth decision failed). -/
theorem failed_signature_no_processing :
    (∀ (cfg : StripeW.Cfg) (env : StripeW.Env) (db : StripeW.DB) (req : StripeW.Req)
        (sec bk ef : String) (hdr : String),
      req.method = "POST" → cfg.webhookSecret = some sec →
      cfg.brevoApiKey = some bk → cfg.emailFrom = some ef →
      req.sigHeader = some hdr →
      StripeW.verifyStripeSignature env.hmac req.rawBody hdr sec = .ok false →
      StripeW.handler cfg env db req =
        (StripeW.badR "bad signature" 400, db, StripeW.noEff))
    ∧ (∀ (cfg : Payhip.Cfg) (env : Payhip.Env) (rows : List SubscriberRow)
        (hdr : Option String) (raw : String) (parsed : Option J),
      Payhip.verifyHmac cfg.secret hdr env.hmac raw = false →
      Payhip.handler cfg env rows "POST" hdr raw parsed =
        ({ status := 401, body := J.jobj [("ok", J.jb false), ("error", J.js "unauthorized")] },
         rows, Payhip.noEff))
    ∧ (∀ (cfg : Gumroad.Cfg) (env : Gumroad.Env) (rows : List SubscriberRow)
        (hdr : Option String) (rawBody : String) (p : J),
      cfg.requireAuth = true →
      Gumroad.actionOf p ≠ "ping" →
      Gumroad.authDecision cfg env hdr rawBody p = false →
      Gumroad.handler cfg env rows hdr rawBody p =
        ({ status := 200, body := J.jobj [("ok", J.jb false), ("error", J.js "unauthorized")] },
         rows, Gumroad.noEff)) := by
  refine ⟨?_, ?_, ?_⟩
  · intro cfg env db req sec bk ef hdr hm hsec hbk hef hh hv
    simp [StripeW.handler, hm, hsec, hbk, hef, hh, hv]
  · intro cfg env rows hdr raw parsed hv
    simp [Payhip.handler, hv]
  · intro cfg env rows hdr rawBody p hreq hping hauth
    simp only [Gumroad.handler]
    rw [if_neg (by simp [hping]), if_pos (by simp [hreq, hauth])]

/-- C1 witness: the card-processor clause at a concrete forged
request (digest mismatch). -/
theorem failed_signature_no_processing_witness :
    StripeW.handler { webhookSecret := some "k", brevoApiKey := some "b",
                      emailFrom := some "f", dbConfigured := true }
      { hmac := fun _ _ => "ee", parse := fun _ => none, ledgerOk := true,
        emailOk := true, emailErr := "", now := "T" }
      { ledger := [], customers := [], subs := [], notifs := [] }
      { method := "POST", sigHeader := some "t=1,v1=ab", rawBody := "xbody" } =
      (StripeW.badR "bad signature" 400,
       { ledger := [], customers := [], subs := [], notifs := [] }, StripeW.noEff) :=
  failed_signature_no_processing.1 _ _ _ _ "k" "b" "f" "t=1,v1=ab" rfl rfl rfl rfl rfl rfl

/-- C5 counterexample: with auth required but no secret and no seller
id configured, the gumroad HMAC check fails closed (`false`), yet the
body-credential fallback is vacuously satisfied, so a completely
unauthenticated sale delivery is accepted and fully processed — the
subscriber row is written. -/
theorem gumroad_no_secret_accepts_counterexample :
    Gumroad.verifyHmac none (some "whatever") (fun _ _ => "00") "raw" = false
    ∧ Gumroad.authDecision { secret := none, sellerId := none, requireAuth := true,
                             telegramConfigured := false, autoInviteReady := false,
                             dbConfigured := true }
        { hmac := fun _ _ => "00", now := "T", pdfUrl := none, csvUrl := none,
          addMemberOk := true }
        none "raw"
        (J.jobj [("action", J.js "sale"), ("sale_id", J.js "s1"),
          ("email", J.js "a@b.com")]) = true
    ∧ (Gumroad.handler { secret := none, sellerId := none, requireAuth := true,
                         telegramConfigured := false, autoInviteReady := false,
                         dbConfigured := true }
        { hmac := fun _ _ => "00", now := "T", pdfUrl := none, csvUrl := none,
          addMemberOk := true }
        [] none "raw"
        (J.jobj [("action", J.js "sale"), ("sale_id", J.js "s1"),
          ("email", J.js "a@b.com")])).1.status = 200
    ∧ (Gumroad.handler { secret := none, sellerId := none, requireAuth := true,
                         telegramConfigured := false, autoInviteReady := false,
                         dbConfigured := true }
        { hmac := fun _ _ => "00", now := "T", pdfUrl := none, csvUrl := none,
          addMemberOk := true }
        [] none "raw"
        (J.jobj [("action", J.js "sale"), ("sale_id", J.js "s1"),
          ("email", J.js "a@b.com")])).2.1 =
      [{ sale_id := some "s1", email := "a@b.com", product_id := none, seller_id := none,
         full_name := none, source := none, pdf_url := none, csv_url := none,
         revoked_at := none }]
    ∧ (Gumroad.handler { secret := none, sellerId := none, requireAuth := true,
                         telegramConfigured := false, autoInviteReady := false,
                         dbConfigured := true }
        { hmac := fun _ _ => "00", now := "T", pdfUrl := none, csvUrl := none,
          addMemberOk := true }
        [] none "raw"
        (J.jobj [("action", J.js "sale"), ("sale_id", J.js "s1"),
          ("email", J.js "a@b.com")])).2.2.upserts = 1 :=
  ⟨rfl, rfl, rfl, rfl, rfl⟩

/-- C5 (amended): every per-provider HMAC verification function fails
closed when no secret is configured, and the stripe and payhip
handlers then never accept a delivery (500 "server not configured" /
401 unauthorized, both with no writes); the gumroad handler, however,
falls back to body credentials, and with neither a secret nor a
seller id configured the fallback authenticates *every* delivery. -/
theorem no_secret_fail_closed_except_gumroad :
    (∀ (hdr : Option String) (hmac : String → String → String) (raw : String),
      Gumroad.verifyHmac none hdr hmac raw = false)
    ∧ (∀ (hdr : Option String) (hmac : String → String → String) (raw : String),
      Payhip.verifyHmac none hdr hmac raw = false)
    ∧ (∀ (cfg : StripeW.Cfg) (env : StripeW.Env) (db : StripeW.DB) (req : StripeW.Req),
      req.method = "POST" → cfg.webhookSecret = none →
      StripeW.handler cfg env db req =
        (StripeW.badR "server not configured (secret)" 500, db, StripeW.noEff))
    ∧ (∀ (cfg : Payhip.Cfg) (env : Payhip.Env) (rows : List SubscriberRow)
        (hdr : Option String) (raw : String) (parsed : Option J),
      cfg.secret = none →
      Payhip.handler cfg env rows "POST" hdr raw parsed =
        ({ status := 401, body := J.jobj [("ok", J.jb false), ("error", J.js "unauthorized")] },
         rows, Payhip.noEff))
    ∧ (∀ (cfg : Gumroad.Cfg) (env : Gumroad.Env) (hdr : Option String)
        (raw : String) (p : J),
      cfg.secret = none → cfg.sellerId = none →
      Gumroad.authDecision cfg env hdr raw p = true) := by
  refine ⟨?_, ?_, ?_, ?_, ?_⟩
  · intro hdr hmac raw
    simp [Gumroad.verifyHmac]
  · intro hdr hmac raw
    simp [Payhip.verifyHmac]
  · intro cfg env db req hm hsec
    simp [StripeW.handler, hm, hsec]
  · intro cfg env rows hdr raw parsed hsec
    simp [Payhip.handler, Payhip.verifyHmac, hsec]
  · intro cfg env hdr raw p hsec hsell
    simp [Gumroad.authDecision, Gumroad.verifyHmac, hsec, hsell]

/-- C5 witness: the gumroad fallback clause at a concrete
configuration with no credentials configured. -/
theorem no_secret_fail_closed_except_gumroad_witness :
    Gumroad.authDecision { secret := none, sellerId := none, requireAuth := true,
                           telegramConfigured := false, autoInviteReady := false,
                           dbConfigured := true }
      { hmac := fun _ _ => "00", now := "T", pdfUrl := none, csvUrl := none,
        addMemberOk := true }
      none "raw" (J.jobj [("action", J.js "sale")]) = true :=
  no_secret_fail_closed_except_gumroad.2.2.2.2 _ _ none "raw"
    (J.jobj [("action", J.js "sale")]) rfl rfl

theorem jstr_js (s : String) : jstr (J.js s) = s := rfl

/-- C2 counterexample: the gumroad handler has no event ledger.
Delivering the same sale `(sale_id "s1")` twice: the second delivery
performs the subscriber upsert again (`upserts = 1`, not zero),
notifies Telegram again, and its 200 response carries no
`duplicate:true` field. -/
theorem gumroad_replay_counterexample :
    (Gumroad.handler { secret := none, sellerId := none, requireAuth := false,
                       telegramConfigured := true, autoInviteReady := false,
                       dbConfigured := true }
      { hmac := fun _ _ => "00", now := "T", pdfUrl := none, csvUrl := none,
        addMemberOk := true }
      [] none "raw"
      (J.jobj [("action", J.js "sale"), ("sale_id", J.js "s1"),
        ("email", J.js "a@b.com")])).2.1 =
      [{ sale_id := some "s1", email := "a@b.com", product_id := none, seller_id := none,
         full_name := none, source := none, pdf_url := none, csv_url := none,
         revoked_at := none }]
    ∧ (Gumroad.handler { secret := none, sellerId := none, requireAuth := false,
                         telegramConfigured := true, autoInviteReady := false,
                         dbConfigured := true }
      { hmac := fun _ _ => "00", now := "T", pdfUrl := none, csvUrl := none,
        addMemberOk := true }
      [{ sale_id := some "s1", email := "a@b.com", product_id := none, seller_id := none,
         full_name := none, source := none, pdf_url := none, csv_url := none,
         revoked_at := none }] none "raw"
      (J.jobj [("action", J.js "sale"), ("sale_id", J.js "s1"),
        ("email", J.js "a@b.com")])).2.2.upserts = 1
    ∧ (Gumroad.handler { secret := none, sellerId := none, requireAuth := false,
                         telegramConfigured := true, autoInviteReady := false,
                         dbConfigured := true }
      { hmac := fun _ _ => "00", now := "T", pdfUrl := none, csvUrl := none,
        addMemberOk := true }
      [{ sale_id := some "s1", email := "a@b.com", product_id := none, seller_id := none,
         full_name := none, source := none, pdf_url := none, csv_url := none,
         revoked_at := none }] none "raw"
      (J.jobj [("action", J.js "sale"), ("sale_id", J.js "s1"),
        ("email", J.js "a@b.com")])).2.2.telegramNotifies = 1
    ∧ getF (some (Gumroad.handler { secret := none, sellerId := none, requireAuth := false,
                                    telegramConfigured := true, autoInviteReady := false,
                                    dbConfigured := true }
      { hmac := fun _ _ => "00", now := "T", pdfUrl := none, csvUrl := none,
        addMemberOk := true }
      [{ sale_id := some "s1", email := "a@b.com", product_id := none, seller_id := none,
         full_name := none, source := none, pdf_url := none, csv_url := none,
         revoked_at := none }] none "raw"
      (J.jobj [("action", J.js "sale"), ("sale_id", J.js "s1"),
        ("email", J.js "a@b.com")])).1.body) "duplicate" = none
    ∧ (Gumroad.handler { secret := none, sellerId := none, requireAuth := false,
                         telegramConfigured := true, autoInviteReady := false,
                         dbConfigured := true }
      { hmac := fun _ _ => "00", now := "T", pdfUrl := none, csvUrl := none,
        addMemberOk := true }
      [{ sale_id := some "s1", email := "a@b.com", product_id := none, seller_id := none,
         full_name := none, source := none, pdf_url := none, csv_url := none,
         revoked_at := none }] none "raw"
      (J.jobj [("action", J.js "sale"), ("sale_id", J.js "s1"),
        ("email", J.js "a@b.com")])).1.status = 200 :=
  ⟨rfl, rfl, rfl, rfl, rfl⟩

/-- C2 (amended): only the card-processor handler has the event
ledger, and for it the claim holds: a first delivery of a new
checkout event performs exactly one customer upsert, one entitlement
upsert, one notification record, one email send attempt; immediately
redelivering the same event returns `200 {received:true,
duplicate:true}` with zero writes, zero sends, and an unchanged
database.  (The marketplace handlers have no ledger and re-run their
writes on every delivery — see the counterexample.) -/
theorem stripe_double_delivery_idempotent
    (cfg : StripeW.Cfg) (env : StripeW.Env) (db : StripeW.DB) (req : StripeW.Req)
    (sec bk ef hdr eid csid em plan : String)
    (hm : req.method = "POST") (hsec : cfg.webhookSecret = some sec)
    (hbk : cfg.brevoApiKey = some bk) (hef : cfg.emailFrom = some ef)
    (hdbc : cfg.dbConfigured = true) (hled : env.ledgerOk = true)
    (hh : req.sigHeader = some hdr)
    (hv : StripeW.verifyStripeSignature env.hmac req.rawBody hdr sec = .ok true)
    (hparse : env.parse req.rawBody = some (J.jobj [("id", J.js eid),
      ("type", J.js "checkout.session.completed"),
      ("data", J.jobj [("object", J.jobj [("id", J.js csid),
        ("customer_details", J.jobj [("email", J.js em)]),
        ("metadata", J.jobj [("plan_id", J.js plan)])])])]))
    (hem : em ≠ "") (hnew : ¬ (eid ∈ db.ledger)) :
    (StripeW.handler cfg env db req).2.2 =
      { customerUpserts := 1, subUpserts := 1, notifInserts := 1, emailSends := 1 }
    ∧ (StripeW.handler cfg env db req).1 =
      StripeW.okR (J.jobj [("received", J.jb true), ("sent", J.jb env.emailOk)])
    ∧ (StripeW.handler cfg env db req).2.1 =
      { ledger := db.ledger ++ [eid]
        customers := StripeW.customerUpsert db.customers
          { stripe_customer_id := none, email := J.js em }
        subs := StripeW.subUpsert db.subs
          { stripe_checkout_session_id := some (J.js csid), status := "active",
            plan_id := J.js plan, last_event_at := env.now }
        notifs := db.notifs ++
          [{ to_email := J.js em, product_name := "Premium Access",
             event_id := eid, stripe_checkout_session_id := some (J.js csid),
             stripe_customer_id := none,
             status := if env.emailOk then "sent" else "error",
             error_message := if env.emailOk then none else some env.emailErr }] }
    ∧ StripeW.handler cfg env (StripeW.handler cfg env db req).2.1 req =
      (StripeW.okR (J.jobj [("received", J.jb true), ("duplicate", J.jb true)]),
       (StripeW.handler cfg env db req).2.1, StripeW.noEff) := by
  have hem2 : em.isEmpty = false := by
    rw [Bool.eq_false_iff]
    intro hx
    exact hem ((String.isEmpty_iff em).mp hx)
  have h3 : (StripeW.handler cfg env db req).2.1 =
      { ledger := db.ledger ++ [eid]
        customers := StripeW.customerUpsert db.customers
          { stripe_customer_id := none, email := J.js em }
        subs := StripeW.subUpsert db.subs
          { stripe_checkout_session_id := some (J.js csid), status := "active",
            plan_id := J.js plan, last_event_at := env.now }
        notifs := db.notifs ++
          [{ to_email := J.js em, product_name := "Premium Access",
             event_id := eid, stripe_checkout_session_id := some (J.js csid),
             stripe_customer_id := none,
             status := if env.emailOk then "sent" else "error",
             error_message := if env.emailOk then none else some env.emailErr }] } := by
    simp [StripeW.handler, hm, hsec, hbk, hef, hdbc, hled, hh, hv, hparse,
      StripeW.normalizeStripeEvent, StripeW.extractProductName, StripeW.extractBuyerEmail,
      StripeW.shouldSend, StripeW.shouldProcessDb, getF, jget, getIdx, jor, jS,
      jstr_js, jeqStr, truthyO, truthy, hem2, hnew]
  refine ⟨?_, ?_, h3, ?_⟩
  · simp [StripeW.handler, hm, hsec, hbk, hef, hdbc, hled, hh, hv, hparse,
      StripeW.normalizeStripeEvent, StripeW.extractProductName, StripeW.extractBuyerEmail,
      StripeW.shouldSend, StripeW.shouldProcessDb, getF, jget, getIdx, jor, jS,
      jstr_js, jeqStr, truthyO, truthy, hem2, hnew]
  · simp [StripeW.handler, hm, hsec, hbk, hef, hdbc, hled, hh, hv, hparse,
      StripeW.normalizeStripeEvent, StripeW.extractProductName, StripeW.extractBuyerEmail,
      StripeW.shouldSend, StripeW.shouldProcessDb, getF, jget, getIdx, jor, jS,
      jstr_js, jeqStr, truthyO, truthy, hem2, hnew]
  · rw [h3]
    simp [StripeW.handler, hm, hsec, hbk, hef, hdbc, hled, hh, hv, hparse,
      StripeW.normalizeStripeEvent, StripeW.extractProductName, StripeW.extractBuyerEmail,
      StripeW.shouldSend, StripeW.shouldProcessDb, getF, jget, getIdx, jor, jS,
      jstr_js, jeqStr, truthyO, truthy, hem2, hnew]

/-- C2 witness: a concrete first delivery of a fresh checkout event
on a configured server, via the theorem — exactly one of each write
and send. -/
theorem stripe_double_delivery_idempotent_witness :
    (StripeW.handler { webhookSecret := some "k", brevoApiKey := some "b",
                       emailFrom := some "f", dbConfigured := true }
      { hmac := fun _ _ => "ab",
        parse := fun _ => some (J.jobj [("id", J.js "evt_1"),
          ("type", J.js "checkout.session.completed"),
          ("data", J.jobj [("object", J.jobj [("id", J.js "cs_1"),
            ("customer_details", J.jobj [("email", J.js "a@b.com")]),
            ("metadata", J.jobj [("plan_id", J.js "plan")])])])]),
        ledgerOk := true, emailOk := true, emailErr := "", now := "T" }
      { ledger := [], customers := [], subs := [], notifs := [] }
      { method := "POST", sigHeader := some "t=1,v1=ab", rawBody := "xbody" }).2.2 =
      { customerUpserts := 1, subUpserts := 1, notifInserts := 1, emailSends := 1 } :=
  (stripe_double_delivery_idempotent
    { webhookSecret := some "k", brevoApiKey := some "b",
      emailFrom := some "f", dbConfigured := true }
    { hmac := fun _ _ => "ab",
      parse := fun _ => some (J.jobj [("id", J.js "evt_1"),
        ("type", J.js "checkout.session.completed"),
        ("data", J.jobj [("object", J.jobj [("id", J.js "cs_1"),
          ("customer_details", J.jobj [("email", J.js "a@b.com")]),
          ("metadata", J.jobj [("plan_id", J.js "plan")])])])]),
      ledgerOk := true, emailOk := true, emailErr := "", now := "T" }
    { ledger := [], customers := [], subs := [], notifs := [] }
    { method := "POST", sigHeader := some "t=1,v1=ab", rawBody := "xbody" }
    "k" "b" "f" "t=1,v1=ab" "evt_1" "cs_1"
    "a@b.com" "plan" rfl rfl rfl rfl rfl rfl rfl rfl rfl (by decide) (by simp)).1
